import Mathlib

/-!
# Authentication backend (`src/backend/server.js`)

A shallow embedding of the Express handlers of `server.js`: the `users` table
created by `connectDB`, the start-up retry loop `connectDBWithRetry`, the
signing secret `JWT_SECRET`, `generateToken`, `authMiddleware` and the three
routes `/api/register`, `/api/login` and `/api/user`.

The libraries the file calls are external to the repository.  They enter the
model as follows.

* `mysql2` / the database: an in-memory table that follows the column types
  written in the `CREATE TABLE` statement of `connectDB`
  (`INT AUTO_INCREMENT`, `VARCHAR(255)`, `UNIQUE`).  The server's SQL mode
  (strict or not) is not fixed by the source and is a field of the store.
  String comparison in `WHERE email = ?` is exact match.
* `bcrypt`: a parameter `Hasher` (`hash` with the salt it draws, `compare`) for
  string data; on data that is not a string both calls are rejected, as the
  library does, and the handler's `catch` block answers.
* `jsonwebtoken`: a parameter `JwtLib` giving the compact serialisation and
  the keyed signature; `jwtSign` and `jwtVerify` are written over it, and
  `JwtLib.Lawful` is the contract of the serialisation.
* the clock: a natural number of seconds, passed to every operation that
  reads it.

Every handler returns the response it sends together with the store it
leaves behind and the list of library operations it performed, in order.
-/

namespace AuthServer

/-! ## JSON values and responses -/

/-- A JSON value, as far as this server tells values apart: strings and
numbers with their content, booleans, `null`, and arrays or objects, which the
handlers only test for truthiness and hand to bcrypt. -/
inductive JVal where
  | str (s : String)
  | num (n : Nat)
  | bool (b : Bool)
  | null
  | object
  deriving DecidableEq, Repr

/-- A JSON object: its fields in order. -/
abbrev Json := List (String × JVal)

/-- Whether the object has a field named `k`. -/
def hasField (k : String) (j : Json) : Bool :=
  j.any (fun kv => kv.1 == k)

/-- The object `{ message: m }`. -/
def msg (m : String) : Json := [("message", JVal.str m)]

/-! ## The `users` table -/

/-- One row of `users (id, email, password)`. -/
structure Row where
  id : Nat
  email : String
  password : String
  deriving DecidableEq, Repr

/-- The table together with its `AUTO_INCREMENT` counter and the SQL mode of
the server that holds it. -/
structure Store where
  rows : List Row
  nextId : Nat
  strict : Bool
  deriving DecidableEq, Repr

/-- Largest value of a MySQL `INT` column. -/
def intMax : Nat := 2147483647

/-- Width of the `VARCHAR(255)` columns. -/
def varcharLen : Nat := 255

/-- Why a statement was refused by the database. -/
inductive DbError where
  | dataTooLong
  | duplicateEntry
  | autoIncrementExhausted
  deriving DecidableEq, Repr

/-- Storing a string in a `VARCHAR(255)` column.  A value that fits is kept.
A longer value is cut to 255 characters when only spaces are lost or when the
server is not in strict mode, and refused in strict mode otherwise. -/
def storeVarchar (strict : Bool) (v : String) : Except DbError String :=
  if v.length ≤ varcharLen then .ok v
  else if strict && (v.data.drop varcharLen).any (fun c => c != ' ') then
    .error .dataTooLong
  else .ok (String.mk (v.data.take varcharLen))

/-- `SELECT * FROM users WHERE email = ?`. -/
def selectByEmail (s : Store) (email : String) : List Row :=
  s.rows.filter (fun r => r.email == email)

/-- The row object returned by `SELECT id, email`. -/
def idEmail (r : Row) : Json := [("id", JVal.num r.id), ("email", JVal.str r.email)]

/-- `SELECT id, email FROM users WHERE id = ?`. -/
def selectIdEmailById (s : Store) (id : Nat) : List Json :=
  (s.rows.filter (fun r => r.id == id)).map idEmail

/-- `INSERT INTO users (email, password) VALUES (?, ?)` against the schema of
`connectDB`: the email must fit `VARCHAR(255)`, the counter must still be an
`INT`, and the stored email must not be present already (`UNIQUE`).  The
password column always receives a bcrypt digest, which is 60 characters long,
so its width is never reached. -/
def insertUser (s : Store) (email hashed : String) : Except DbError Store :=
  match storeVarchar s.strict email with
  | .error e => .error e
  | .ok stored =>
    if intMax < s.nextId then .error .autoIncrementExhausted
    else if s.rows.any (fun r => r.email == stored) then .error .duplicateEntry
    else .ok { s with rows := s.rows ++ [⟨s.nextId, stored, hashed⟩], nextId := s.nextId + 1 }

/-- The table invariant that `AUTO_INCREMENT PRIMARY KEY` maintains: every id
in use lies below the counter. -/
def Store.WF (s : Store) : Prop := ∀ r ∈ s.rows, r.id < s.nextId

instance (s : Store) : Decidable s.WF := by
  unfold Store.WF; infer_instance

/-! ## bcrypt -/

/-- The two bcrypt operations the server calls.  `hash` receives the salt that
the library draws for the call. -/
structure Hasher where
  hash : Nat → String → String
  compare : String → String → Bool

/-! ## Operations and outcomes -/

/-- A library operation performed while a request is handled. -/
inductive Op where
  | dbSelectByEmail (email : String)
  | dbInsert (email hashed : String)
  | dbSelectById (id : Nat)
  | bcryptHash (password : JVal)
  | bcryptCompare (password : JVal) (hashed : String)
  | jwtSign (id : Nat) (email : String)
  | jwtVerify (token : String)
  deriving DecidableEq, Repr

/-- What handling one request amounts to. -/
structure Outcome where
  status : Nat
  body : Json
  store : Store
  trace : List Op
  deriving DecidableEq, Repr

/-- A request body `{ email, password }` as `express.json()` delivers it.  A
field may be absent.  The password may be any JSON value.  The email, when
present, is a string: how the database driver binds a value of another type
is not part of this model. -/
structure Credentials where
  email : Option String
  password : Option JVal
  deriving DecidableEq, Repr

/-- JavaScript `!x` for a value that is `undefined` or a string. -/
def falsy : Option String → Bool
  | none => true
  | some s => s == ""

/-- JavaScript `!x` for a value that is `undefined` or a JSON value. -/
def falsyValue : Option JVal → Bool
  | none => true
  | some (.str s) => s == ""
  | some (.num n) => n == 0
  | some (.bool b) => !b
  | some .null => true
  | some .object => false

/-- `bcrypt.hash(data, 10)`, with the salt the library draws: the promise is
rejected (`none`) when `data` is not a string. -/
def bcryptHash (H : Hasher) (salt : Nat) (data : JVal) : Option String :=
  match data with
  | .str p => some (H.hash salt p)
  | _ => none

/-- `bcrypt.compare(data, hashed)`: the promise is rejected (`none`) when
`data` is not a string. -/
def bcryptCompare (H : Hasher) (data : JVal) (hashed : String) : Option Bool :=
  match data with
  | .str p => some (H.compare p hashed)
  | _ => none

/-! ## `POST /api/register` -/

/-- The handler of `POST /api/register`.  Whatever is thrown inside the `try`
block, by bcrypt or by the database, is answered in the `catch` block with
500. -/
def register (H : Hasher) (salt : Nat) (s : Store) (body : Credentials) : Outcome :=
  if falsy body.email || falsyValue body.password then
    ⟨400, msg "Email and password required", s, []⟩
  else
    let email := body.email.getD ""
    let password := body.password.getD .null
    let users := selectByEmail s email
    if users.length > 0 then
      ⟨400, msg "User exists", s, [.dbSelectByEmail email]⟩
    else
      match bcryptHash H salt password with
      | none =>
        ⟨500, msg "Error registering user", s,
          [.dbSelectByEmail email, .bcryptHash password]⟩
      | some hashed =>
        match insertUser s email hashed with
        | .ok s' =>
          ⟨201, msg "User registered", s',
            [.dbSelectByEmail email, .bcryptHash password, .dbInsert email hashed]⟩
        | .error _ =>
          ⟨500, msg "Error registering user", s,
            [.dbSelectByEmail email, .bcryptHash password, .dbInsert email hashed]⟩

/-! ## jsonwebtoken -/

/-- The process environment: variable names with their values. -/
abbrev Env := List (String × String)

/-- The payload of a token of this server: the signed `{ id, email }` with the
`iat` and `exp` stamps (seconds) that `jwt.sign` adds for `expiresIn`. -/
structure Claims where
  id : Nat
  email : String
  iat : Nat
  exp : Nat
  deriving DecidableEq, Repr

/-- The parts of `jsonwebtoken` that are not written out here: the keyed
signature over a payload, and the compact serialisation of a payload with its
signature to a token string and back. -/
structure JwtLib where
  mac : String → Claims → String
  encode : Claims → String → String
  decode : String → Option (Claims × String)

/-- Why `jwt.verify` calls back with an error. -/
inductive VerifyError where
  | malformed
  | invalidSignature
  | expired
  deriving DecidableEq, Repr

/-- Seconds in `expiresIn: '1h'`. -/
def oneHour : Nat := 3600

/-- `jwt.sign({ id, email }, secret, { expiresIn: '1h' })` at clock `now`. -/
def jwtSign (L : JwtLib) (id : Nat) (email : String) (secret : String) (now : Nat) : String :=
  let c : Claims := ⟨id, email, now, now + oneHour⟩
  L.encode c (L.mac secret c)

/-- `jwt.verify(token, secret)` at clock `now`: the token must parse, carry the
signature of its payload under `secret`, and the clock must be before `exp`. -/
def jwtVerify (L : JwtLib) (token : String) (secret : String) (now : Nat) :
    Except VerifyError Claims :=
  match L.decode token with
  | none => .error .malformed
  | some (c, sig) =>
    if sig != L.mac secret c then .error .invalidSignature
    else if now ≥ c.exp then .error .expired
    else .ok c

/-- `const JWT_SECRET = process.env.JWT_SECRET || 'supersecretkey'`. -/
def JWT_SECRET (env : Env) : String :=
  match env.lookup "JWT_SECRET" with
  | none => "supersecretkey"
  | some v => if v == "" then "supersecretkey" else v

/-- `generateToken(user)`. -/
def generateToken (L : JwtLib) (env : Env) (now : Nat) (user : Row) : String :=
  jwtSign L user.id user.email (JWT_SECRET env) now

/-! ## `authMiddleware` -/

/-- JavaScript `str.split(sep)` for a one-character separator. -/
def jsSplit (sep : Char) : List Char → List (List Char)
  | [] => [[]]
  | c :: cs =>
    if c = sep then [] :: jsSplit sep cs
    else
      match jsSplit sep cs with
      | [] => [[c]]
      | h :: t => (c :: h) :: t

/-- `authHeader && authHeader.split(' ')[1]`. -/
def headerToken (authHeader : Option String) : Option String :=
  match authHeader with
  | none => none
  | some a =>
    if a == "" then some ""
    else ((jsSplit ' ' a.data)[1]?).map String.mk

/-- How `authMiddleware` leaves a request: answered, or passed on with
`req.user` set. -/
inductive AuthResult where
  | reject (status : Nat) (body : Json) (trace : List Op)
  | next (user : Claims) (trace : List Op)
  deriving DecidableEq, Repr

/-- `authMiddleware(req, res, next)` for a request whose `authorization`
header is `authHeader`. -/
def authMiddleware (L : JwtLib) (env : Env) (now : Nat) (authHeader : Option String) :
    AuthResult :=
  let token := headerToken authHeader
  if falsy token then .reject 401 (msg "No token") []
  else
    let t := token.getD ""
    match jwtVerify L t (JWT_SECRET env) now with
    | .error _ => .reject 403 (msg "Invalid token") [.jwtVerify t]
    | .ok user => .next user [.jwtVerify t]

/-! ## `POST /api/login` -/

/-- The handler of `POST /api/login`.  Whatever is thrown inside the `try`
block is answered in the `catch` block with 500. -/
def login (L : JwtLib) (H : Hasher) (env : Env) (now : Nat) (s : Store) (body : Credentials) :
    Outcome :=
  if falsy body.email || falsyValue body.password then
    ⟨400, msg "Email and password required", s, []⟩
  else
    let email := body.email.getD ""
    let password := body.password.getD .null
    match selectByEmail s email with
    | [] => ⟨400, msg "Invalid credentials", s, [.dbSelectByEmail email]⟩
    | user :: _ =>
      match bcryptCompare H password user.password with
      | none =>
        ⟨500, msg "Error logging in", s,
          [.dbSelectByEmail email, .bcryptCompare password user.password]⟩
      | some valid =>
        if !valid then
          ⟨400, msg "Invalid credentials", s,
            [.dbSelectByEmail email, .bcryptCompare password user.password]⟩
        else
          let token := generateToken L env now user
          ⟨200, [("token", JVal.str token)], s,
            [.dbSelectByEmail email, .bcryptCompare password user.password,
              .jwtSign user.id user.email]⟩

/-! ## `GET /api/user` -/

/-- The handler of `GET /api/user`, run once `authMiddleware` has set
`req.user`. -/
def userHandler (s : Store) (user : Claims) : Outcome :=
  match selectIdEmailById s user.id with
  | [] => ⟨404, msg "User not found", s, [.dbSelectById user.id]⟩
  | u :: _ => ⟨200, u, s, [.dbSelectById user.id]⟩

/-- The route `app.get('/api/user', authMiddleware, handler)`. -/
def getUser (L : JwtLib) (env : Env) (now : Nat) (s : Store) (authHeader : Option String) :
    Outcome :=
  match authMiddleware L env now authHeader with
  | .reject status body trace => ⟨status, body, s, trace⟩
  | .next user trace =>
    let o := userHandler s user
    { o with trace := trace ++ o.trace }

/-! ## Start-up -/

/-- What the start-up loop does, in order. -/
inductive BootEvent where
  | attempt (i : Nat)
  | wait (delay : Nat)
  deriving DecidableEq, Repr

/-- How the promise of `connectDBWithRetry` settles. -/
inductive Settled where
  | resolved
  | rejected (err : String)
  deriving DecidableEq, Repr

/-- The `for` loop of `connectDBWithRetry` from index `i` on.  `connectDB i` is
the outcome of the attempt with index `i`: `none` when it connects, the error
it throws otherwise. -/
def connectLoop (connectDB : Nat → Option String) (retries delay : Nat) (i : Nat) :
    List BootEvent × Settled :=
  if i < retries then
    match connectDB i with
    | none => ([.attempt i], .resolved)
    | some err =>
      if i < retries - 1 then
        let rest := connectLoop connectDB retries delay (i + 1)
        (.attempt i :: .wait delay :: rest.1, rest.2)
      else ([.attempt i], .rejected err)
  else ([], .resolved)
termination_by retries - i
decreasing_by omega

/-- `connectDBWithRetry(retries, delay)`. -/
def connectDBWithRetry (connectDB : Nat → Option String) (retries delay : Nat) :
    List BootEvent × Settled :=
  connectLoop connectDB retries delay 0

/-- The last statement of the file: `connectDBWithRetry().then(() => app.listen(...))`,
with the default arguments `retries = 10`, `delay = 3000`.  The result says
whether `app.listen` is called. -/
def startup (connectDB : Nat → Option String) : Bool :=
  match (connectDBWithRetry connectDB 10 3000).2 with
  | .resolved => true
  | .rejected _ => false

/-! ## Concrete instances of the library parameters

Small stand-ins for bcrypt and jsonwebtoken, used to run the handlers on
concrete requests. -/

/-- A hasher that tags the password; `compare` recomputes the tag. -/
def demoHasher : Hasher where
  hash := fun _ p => "$2b$10$" ++ p
  compare := fun p h => h == "$2b$10$" ++ p

/-- Reads a decimal numeral. -/
def natOfDigits (cs : List Char) : Option Nat :=
  cs.foldl (fun acc c => acc.bind fun n =>
    if c.isDigit then some (10 * n + (c.toNat - 48)) else none) (some 0)

/-- A token codec that writes the payload fields and the signature separated
by `~`, with a signature that names the key and the payload. -/
def demoJwt : JwtLib where
  mac := fun secret c =>
    secret ++ "#" ++ toString c.id ++ "#" ++ c.email ++ "#" ++ toString c.exp
  encode := fun c sig =>
    toString c.id ++ "~" ++ c.email ++ "~" ++ toString c.iat ++ "~" ++ toString c.exp ++ "~" ++ sig
  decode := fun t =>
    match jsSplit '~' t.data with
    | [i, e, a, x, sg] =>
      match natOfDigits i, natOfDigits a, natOfDigits x with
      | some i, some a, some x => some (⟨i, String.mk e, a, x⟩, String.mk sg)
      | _, _, _ => none
    | _ => none

/-- What the server relies on from the serialisation of jsonwebtoken: a token
that `encode` wrote is read back by `decode` as the payload and the signature
it was written from, and it is a non-empty string without spaces. -/
structure JwtLib.Lawful (L : JwtLib) : Prop where
  decode_encode : ∀ c sig, L.decode (L.encode c sig) = some (c, sig)
  encode_ne : ∀ c sig, L.encode c sig ≠ ""
  encode_no_space : ∀ c sig, ' ' ∉ (L.encode c sig).data

/-- Writes each character as its code point in unary, closed by a dot. -/
def unaryChars (cs : List Char) : List Char :=
  cs.flatMap (fun c => List.replicate c.toNat 'x' ++ ['.'])

/-- Reads back what `unaryChars` wrote; `acc` counts the marks of the
character being read. -/
def readUnary : Nat → List Char → List Char
  | _, [] => []
  | acc, c :: cs =>
    if c = '.' then Char.ofNat acc :: readUnary 0 cs else readUnary (acc + 1) cs

/-- A token codec that reads back every token it writes, whatever the strings
in it: five fields closed off by `;`, numbers and characters in unary. -/
def unaryJwt : JwtLib where
  mac := fun secret c => secret ++ "#" ++ c.email
  encode := fun c sig =>
    String.mk (List.replicate c.id 'x' ++ ';' :: (unaryChars c.email.data ++ ';' ::
      (List.replicate c.iat 'x' ++ ';' :: (List.replicate c.exp 'x' ++ ';' ::
        unaryChars sig.data))))
  decode := fun t =>
    match jsSplit ';' t.data with
    | [i, e, a, x, sg] =>
      some (⟨i.length, String.mk (readUnary 0 e), a.length, x.length⟩,
        String.mk (readUnary 0 sg))
    | _ => none

/-- An email of 256 characters, one more than the column holds. -/
def longEmail : String := String.mk (List.replicate 256 'a')

/-- Another email of 256 characters. -/
def longEmail2 : String := String.mk (List.replicate 256 'b')

/-- The events of a start-up that fails `j` times and then makes attempt `j`:
each failed attempt is followed by one wait. -/
def retrySchedule (delay : Nat) (j : Nat) : List BootEvent :=
  (List.range j).flatMap (fun i => [BootEvent.attempt i, BootEvent.wait delay])
    ++ [BootEvent.attempt j]

/-- Number of connection attempts among the events. -/
def attempts (evs : List BootEvent) : Nat :=
  (evs.filter (fun ev => match ev with
    | .attempt _ => true
    | .wait _ => false)).length

/-! ## Lemmas on the table -/

theorem storeVarchar_fits (strict : Bool) (v : String) (h : v.length ≤ 255) :
    storeVarchar strict v = .ok v := by
  simp [storeVarchar, varcharLen, h]

theorem selectByEmail_eq_nil (s : Store) (e : String) (h : ∀ r ∈ s.rows, r.email ≠ e) :
    selectByEmail s e = [] := by
  simp only [selectByEmail, List.filter_eq_nil_iff]
  intro r hr
  simpa using h r hr

theorem falsy_some (e : String) (h : e ≠ "") : falsy (some e) = false := by
  simp [falsy, h]

theorem falsyValue_str (p : String) (h : p ≠ "") : falsyValue (some (.str p)) = false := by
  simp [falsyValue, h]

/-- Registering a fresh email that fits the column, in a table whose counter
is still an `INT`, inserts the row and answers 201. -/
theorem register_fresh (H : Hasher) (salt : Nat) (s : Store) (e p : String)
    (he : e ≠ "") (hp : p ≠ "") (hlen : e.length ≤ 255) (hid : s.nextId ≤ intMax)
    (hnew : ∀ r ∈ s.rows, r.email ≠ e) :
    register H salt s ⟨some e, some (.str p)⟩ =
      ⟨201, msg "User registered",
        { s with rows := s.rows ++ [⟨s.nextId, e, H.hash salt p⟩], nextId := s.nextId + 1 },
        [.dbSelectByEmail e, .bcryptHash (.str p), .dbInsert e (H.hash salt p)]⟩ := by
  have hany : s.rows.any (fun r => r.email == e) = false := by
    rw [List.any_eq_false]
    intro r hr
    simpa using hnew r hr
  simp [register, falsy_some, falsyValue_str, bcryptHash, he, hp, selectByEmail_eq_nil s e hnew, insertUser,
    storeVarchar_fits s.strict e hlen, Nat.not_lt.mpr hid, hany]

theorem replicate_string_length (n : Nat) (c : Char) :
    (String.mk (List.replicate n c)).length = n := by
  show (List.replicate n c).length = n
  exact List.length_replicate n c

theorem longEmail_length : longEmail.length = 256 := replicate_string_length 256 'a'

theorem longEmail_ne : longEmail ≠ "" := by
  intro h
  have := congrArg String.length h
  rw [longEmail_length] at this
  exact absurd this (by decide)

theorem storeVarchar_long_strict (c : Char) (hc : c ≠ ' ') :
    storeVarchar true (String.mk (List.replicate 256 c)) = .error .dataTooLong := by
  have h : ¬ ((String.mk (List.replicate 256 c)).length ≤ varcharLen) := by
    rw [replicate_string_length]; decide
  have hd : (String.mk (List.replicate 256 c)).data.drop varcharLen = [c] := by
    show (List.replicate 256 c).drop 255 = [c]
    rw [List.drop_replicate]; rfl
  simp only [storeVarchar, h, if_false, hd]
  simp [hc]

theorem storeVarchar_long_lax (c : Char) :
    storeVarchar false (String.mk (List.replicate 256 c)) = .ok (String.mk (List.replicate 255 c)) := by
  have h : ¬ ((String.mk (List.replicate 256 c)).length ≤ varcharLen) := by
    rw [replicate_string_length]; decide
  have hd : (String.mk (List.replicate 256 c)).data.take varcharLen = List.replicate 255 c := by
    show (List.replicate 256 c).take 255 = _
    rw [List.take_replicate]; rfl
  simp only [storeVarchar, h, if_false, hd, Bool.false_and, Bool.false_eq_true]

theorem short_ne_long (c : Char) :
    String.mk (List.replicate 255 c) ≠ String.mk (List.replicate 256 c) := by
  intro h
  have := congrArg String.length h
  rw [replicate_string_length, replicate_string_length] at this
  exact absurd this (by decide)

theorem long_ne (c : Char) : String.mk (List.replicate 256 c) ≠ "" := by
  intro h
  have := congrArg String.length h
  rw [replicate_string_length] at this
  exact absurd this (by decide)

/-- A fresh email that the column stores as `stored` is inserted under that
value. -/
theorem register_stored (H : Hasher) (salt : Nat) (s : Store) (e p stored : String)
    (he : e ≠ "") (hp : p ≠ "") (hnew : ∀ r ∈ s.rows, r.email ≠ e)
    (hst : storeVarchar s.strict e = .ok stored) (hid : s.nextId ≤ intMax)
    (hfree : ∀ r ∈ s.rows, r.email ≠ stored) :
    register H salt s ⟨some e, some (.str p)⟩ =
      ⟨201, msg "User registered",
        { s with rows := s.rows ++ [⟨s.nextId, stored, H.hash salt p⟩], nextId := s.nextId + 1 },
        [.dbSelectByEmail e, .bcryptHash (.str p), .dbInsert e (H.hash salt p)]⟩ := by
  have hany : s.rows.any (fun r => r.email == stored) = false := by
    rw [List.any_eq_false]
    intro r hr
    simpa using hfree r hr
  simp [register, falsy_some, falsyValue_str, bcryptHash, he, hp, selectByEmail_eq_nil s e hnew, insertUser, hst,
    Nat.not_lt.mpr hid, hany]

/-- A fresh email whose stored value is already in the table is refused by the
`UNIQUE` index, and the handler answers 500. -/
theorem register_unique_violation (H : Hasher) (salt : Nat) (s : Store) (e p stored : String)
    (he : e ≠ "") (hp : p ≠ "") (hnew : ∀ r ∈ s.rows, r.email ≠ e)
    (hst : storeVarchar s.strict e = .ok stored) (hid : s.nextId ≤ intMax)
    (r : Row) (hr : r ∈ s.rows) (hre : r.email = stored) :
    (register H salt s ⟨some e, some (.str p)⟩).status = 500 := by
  have hany : s.rows.any (fun r => r.email == stored) = true := by
    rw [List.any_eq_true]
    exact ⟨r, hr, by simpa using hre⟩
  simp [register, falsy_some, falsyValue_str, bcryptHash, he, hp, selectByEmail_eq_nil s e hnew, insertUser, hst,
    Nat.not_lt.mpr hid, hany]

/-- An email that the column refuses makes the handler answer 500. -/
theorem register_refused (H : Hasher) (salt : Nat) (s : Store) (e p : String) (err : DbError)
    (he : e ≠ "") (hp : p ≠ "") (hnew : ∀ r ∈ s.rows, r.email ≠ e)
    (hst : storeVarchar s.strict e = .error err) :
    (register H salt s ⟨some e, some (.str p)⟩).status = 500 := by
  simp [register, falsy_some, falsyValue_str, bcryptHash, he, hp, selectByEmail_eq_nil s e hnew, insertUser, hst]

/-! ## Registration -/

/-- C1 (as stated, refuted): the claim quantifies over every non-empty email
and every store without that email.  The store ⟨[], 1, strict⟩ holds no user
with the 256-character email `longEmail`, yet in strict mode the first
registration answers 500 instead of 201; outside strict mode the first
registration answers 201 and the second answers 500 instead of 400; and a store
whose `AUTO_INCREMENT` counter has passed the `INT` range answers 500 to the
first registration of `a@b.com`. -/
theorem register_twice_counterexample :
    (∀ r ∈ ([] : List Row), r.email ≠ longEmail) ∧ longEmail ≠ "" ∧
    (register demoHasher 0 ⟨[], 1, true⟩ ⟨some longEmail, some (.str "pw123456")⟩).status = 500 ∧
    (register demoHasher 0 ⟨[], 1, false⟩ ⟨some longEmail, some (.str "pw123456")⟩).status = 201 ∧
    (register demoHasher 0
      (register demoHasher 0 ⟨[], 1, false⟩ ⟨some longEmail, some (.str "pw123456")⟩).store
      ⟨some longEmail, some (.str "other")⟩).status = 500 ∧
    (register demoHasher 0 ⟨[], intMax + 1, true⟩ ⟨some "a@b.com", some (.str "pw123456")⟩).status
      = 500 := by
  refine ⟨by simp, longEmail_ne, ?_, ?_, ?_, by decide⟩
  · exact register_refused _ _ _ _ _ _ longEmail_ne (by decide) (by simp)
      (storeVarchar_long_strict 'a' (by decide))
  · rw [register_stored demoHasher 0 ⟨[], 1, false⟩ longEmail "pw123456" _ longEmail_ne
      (by decide) (by simp) (storeVarchar_long_lax 'a') (by decide) (by simp)]
  · rw [register_stored demoHasher 0 ⟨[], 1, false⟩ longEmail "pw123456" _ longEmail_ne
      (by decide) (by simp) (storeVarchar_long_lax 'a') (by decide) (by simp)]
    refine register_unique_violation _ _ _ _ _ _ longEmail_ne (by decide) ?_
      (storeVarchar_long_lax 'a') (by decide) ⟨1, _, _⟩ (List.mem_singleton.mpr rfl) rfl
    intro r hr
    rw [List.nil_append, List.mem_singleton] at hr
    rw [hr]
    exact short_ne_long 'a'

/-- C1 (amended): for every store that holds no user with email `e` and whose
id counter is within the `INT` range, every non-empty `e` of at most 255
characters and all non-empty `p`, `p'`: `register (e, p)` answers 201 and
appends one row for `e`, after which exactly one row has email `e`; a following
`register (e, p')` answers 400 `User exists`, leaves the store unchanged, and
exactly one row has email `e` afterwards. -/
theorem register_twice (H : Hasher) (salt₁ salt₂ : Nat) (s : Store) (e p p' : String)
    (he : e ≠ "") (hp : p ≠ "") (hp' : p' ≠ "") (hlen : e.length ≤ 255)
    (hid : s.nextId ≤ intMax) (hnew : ∀ r ∈ s.rows, r.email ≠ e) :
    (register H salt₁ s ⟨some e, some (.str p)⟩).status = 201 ∧
    (register H salt₁ s ⟨some e, some (.str p)⟩).store.rows
      = s.rows ++ [⟨s.nextId, e, H.hash salt₁ p⟩] ∧
    (selectByEmail (register H salt₁ s ⟨some e, some (.str p)⟩).store e).length = 1 ∧
    (register H salt₂ (register H salt₁ s ⟨some e, some (.str p)⟩).store ⟨some e, some (.str p')⟩).status
      = 400 ∧
    (register H salt₂ (register H salt₁ s ⟨some e, some (.str p)⟩).store ⟨some e, some (.str p')⟩).body
      = msg "User exists" ∧
    (register H salt₂ (register H salt₁ s ⟨some e, some (.str p)⟩).store ⟨some e, some (.str p')⟩).store
      = (register H salt₁ s ⟨some e, some (.str p)⟩).store ∧
    (selectByEmail
      (register H salt₂ (register H salt₁ s ⟨some e, some (.str p)⟩).store ⟨some e, some (.str p')⟩).store
      e).length = 1 := by
  rw [register_fresh H salt₁ s e p he hp hlen hid hnew]
  have hsel : selectByEmail
      { s with rows := s.rows ++ [⟨s.nextId, e, H.hash salt₁ p⟩], nextId := s.nextId + 1 } e
      = [⟨s.nextId, e, H.hash salt₁ p⟩] := by
    have h0 := selectByEmail_eq_nil s e hnew
    simp only [selectByEmail] at h0 ⊢
    simp [List.filter_append, h0]
  have hsecond : register H salt₂
      { s with rows := s.rows ++ [⟨s.nextId, e, H.hash salt₁ p⟩], nextId := s.nextId + 1 }
      ⟨some e, some (.str p')⟩
      = ⟨400, msg "User exists",
          { s with rows := s.rows ++ [⟨s.nextId, e, H.hash salt₁ p⟩], nextId := s.nextId + 1 },
          [.dbSelectByEmail e]⟩ := by
    simp [register, falsy_some, falsyValue_str, he, hp', hsel]
  refine ⟨rfl, rfl, ?_, ?_, ?_, ?_, ?_⟩
  · simp [hsel]
  · rw [hsecond]
  · rw [hsecond]
  · rw [hsecond]
  · rw [hsecond]; simp [hsel]

/-- C1 witness: `a@b.com` registered twice in the empty table. -/
theorem register_twice_witness :
    (register demoHasher 0 ⟨[], 1, true⟩ ⟨some "a@b.com", some (.str "pw123456")⟩).status = 201 ∧
    (register demoHasher 1
      (register demoHasher 0 ⟨[], 1, true⟩ ⟨some "a@b.com", some (.str "pw123456")⟩).store
      ⟨some "a@b.com", some (.str "other")⟩).status = 400 :=
  have h := register_twice demoHasher 0 1 ⟨[], 1, true⟩ "a@b.com" "pw123456" "other"
    (by decide) (by decide) (by decide) (by decide) (by decide) (by simp)
  ⟨h.1, h.2.2.2.1⟩

/-! ## Missing fields -/

/-- C7: when `email` or `password` is absent or empty, `register` and `login`
both answer 400 `Email and password required` with no library operation
performed, the store unchanged and no token in the body; when both are
non-empty strings neither handler answers with that message. -/
theorem missing_fields_rejected (L : JwtLib) (H : Hasher) (env : Env) (now salt : Nat)
    (s : Store) (body : Credentials) :
    ((body.email = none ∨ body.email = some "" ∨ body.password = none ∨
        body.password = some (.str "")) →
      register H salt s body = ⟨400, msg "Email and password required", s, []⟩ ∧
      login L H env now s body = ⟨400, msg "Email and password required", s, []⟩ ∧
      hasField "token" (register H salt s body).body = false ∧
      hasField "token" (login L H env now s body).body = false) ∧
    (∀ e p : String, e ≠ "" → p ≠ "" → body = ⟨some e, some (.str p)⟩ →
      (register H salt s body).body ≠ msg "Email and password required" ∧
      (login L H env now s body).body ≠ msg "Email and password required") := by
  constructor
  · intro h
    have hf : (falsy body.email || falsyValue body.password) = true := by
      rcases h with h | h | h | h <;> simp [h, falsy, falsyValue]
    simp [register, login, hf, hasField, msg]
  · rintro e p he hp rfl
    constructor
    · simp only [register, falsy_some e he, falsyValue_str p hp, bcryptHash, Option.getD_some,
        Bool.or_self, Bool.false_eq_true, if_false]
      split
      · simp [msg]
      · split <;> simp [msg]
    · simp only [login, falsy_some e he, falsyValue_str p hp, bcryptCompare, Option.getD_some,
        Bool.or_self, Bool.false_eq_true, if_false]
      split
      · simp [msg]
      · split <;> simp [msg]

/-- C7 witness: a body without password is rejected by both handlers, and the
body `a@b.com` / `pw123456` is not. -/
theorem missing_fields_rejected_witness :
    register demoHasher 0 ⟨[], 1, true⟩ ⟨some "a@b.com", none⟩
      = ⟨400, msg "Email and password required", ⟨[], 1, true⟩, []⟩ ∧
    (login demoJwt demoHasher [] 0 ⟨[], 1, true⟩ ⟨some "a@b.com", some (.str "pw123456")⟩).body
      ≠ msg "Email and password required" :=
  ⟨((missing_fields_rejected demoJwt demoHasher [] 0 0 ⟨[], 1, true⟩ ⟨some "a@b.com", none⟩).1
      (Or.inr (Or.inr (Or.inl rfl)))).1,
   ((missing_fields_rejected demoJwt demoHasher [] 0 0 ⟨[], 1, true⟩
      ⟨some "a@b.com", some (.str "pw123456")⟩).2 "a@b.com" "pw123456" (by decide) (by decide) rfl).2⟩

/-! ## Lemmas on the header and the middleware -/

theorem jsSplit_no_sep (sep : Char) (t : List Char) (h : sep ∉ t) : jsSplit sep t = [t] := by
  induction t with
  | nil => rfl
  | cons c cs ih =>
    have hc : c ≠ sep := fun hcs => h (hcs ▸ List.mem_cons_self _ _)
    have hcs : sep ∉ cs := fun hm => h (List.mem_cons_of_mem _ hm)
    simp [jsSplit, hc, ih hcs]

theorem jsSplit_append_sep (sep : Char) (a t : List Char) (h : sep ∉ a) :
    jsSplit sep (a ++ sep :: t) = a :: jsSplit sep t := by
  induction a with
  | nil => simp [jsSplit]
  | cons c cs ih =>
    have hc : c ≠ sep := fun hcs => h (hcs ▸ List.mem_cons_self _ _)
    have hcs : sep ∉ cs := fun hm => h (List.mem_cons_of_mem _ hm)
    simp [jsSplit, hc, ih hcs]

/-- The token of a header `scheme token`: the scheme word is not looked at. -/
theorem headerToken_scheme (scheme t : String) (hs : ' ' ∉ scheme.data) (ht : ' ' ∉ t.data) :
    headerToken (some (scheme ++ " " ++ t)) = some t := by
  have hne : (scheme ++ " " ++ t) ≠ "" := by
    intro h
    have := congrArg String.length h
    simp only [String.length_append] at this
    have h1 : " ".length = 1 := rfl
    have h0 : "".length = 0 := rfl
    omega
  have hd : (scheme ++ " " ++ t).data = scheme.data ++ ' ' :: t.data := by
    simp [String.data_append]
  simp [headerToken, hne, hd, jsSplit_append_sep _ _ _ hs, jsSplit_no_sep _ _ ht]

theorem headerToken_bearer (t : String) (ht : ' ' ∉ t.data) :
    headerToken (some ("Bearer " ++ t)) = some t :=
  headerToken_scheme "Bearer" t (by decide) ht

theorem authMiddleware_of_token (L : JwtLib) (env : Env) (now : Nat) (h : Option String)
    (t : String) (ht : headerToken h = some t) (hne : t ≠ "") :
    authMiddleware L env now h =
      match jwtVerify L t (JWT_SECRET env) now with
      | .error _ => .reject 403 (msg "Invalid token") [.jwtVerify t]
      | .ok user => .next user [.jwtVerify t] := by
  simp only [authMiddleware, ht, falsy, beq_iff_eq, hne, Bool.false_eq_true, if_false,
    Option.getD_some]

theorem authMiddleware_no_token (L : JwtLib) (env : Env) (now : Nat) (h : Option String)
    (ht : falsy (headerToken h) = true) :
    authMiddleware L env now h = .reject 401 (msg "No token") [] := by
  simp [authMiddleware, ht]

theorem jwtVerify_signed (L : JwtLib) (tok secret : String) (now : Nat) (c : Claims)
    (hdec : L.decode tok = some (c, L.mac secret c)) :
    jwtVerify L tok secret now = if now ≥ c.exp then .error .expired else .ok c := by
  simp [jwtVerify, hdec]

/-! ## A lawful token codec -/

theorem readUnary_replicate (n acc : Nat) (rest : List Char) :
    readUnary acc (List.replicate n 'x' ++ rest) = readUnary (acc + n) rest := by
  induction n generalizing acc with
  | zero => simp
  | succ n ih =>
    have hx : ('x' : Char) ≠ '.' := by decide
    rw [List.replicate_succ, List.cons_append, readUnary, if_neg hx, ih]
    congr 1
    omega

theorem readUnary_unaryChars (cs : List Char) : readUnary 0 (unaryChars cs) = cs := by
  induction cs with
  | nil => rfl
  | cons c cs ih =>
    have hstep : unaryChars (c :: cs) = List.replicate c.toNat 'x' ++ '.' :: unaryChars cs := by
      simp [unaryChars]
    rw [hstep, readUnary_replicate, readUnary, if_pos rfl, Nat.zero_add, Char.ofNat_toNat]
    exact congrArg _ (by simpa [unaryChars] using ih)

theorem not_mem_replicate_x (sep : Char) (h : sep ≠ 'x') (n : Nat) :
    sep ∉ List.replicate n 'x' := by
  intro hm
  exact h (List.eq_of_mem_replicate hm)

theorem not_mem_unaryChars (sep : Char) (hx : sep ≠ 'x') (hd : sep ≠ '.') (cs : List Char) :
    sep ∉ unaryChars cs := by
  intro hm
  simp only [unaryChars, List.mem_flatMap, List.mem_append, List.mem_singleton] at hm
  obtain ⟨c, _, h | h⟩ := hm
  · exact hx (List.eq_of_mem_replicate h)
  · exact hd h

/-- The codec `unaryJwt` meets the library contract. -/
theorem unaryJwt_lawful : unaryJwt.Lawful where
  decode_encode := by
    intro c sig
    have h1 := not_mem_replicate_x ';' (by decide)
    have h2 := not_mem_unaryChars ';' (by decide) (by decide)
    simp only [unaryJwt]
    rw [jsSplit_append_sep _ _ _ (h1 c.id), jsSplit_append_sep _ _ _ (h2 c.email.data),
      jsSplit_append_sep _ _ _ (h1 c.iat), jsSplit_append_sep _ _ _ (h1 c.exp),
      jsSplit_no_sep _ _ (h2 sig.data)]
    simp [readUnary_unaryChars]
  encode_ne := by
    intro c sig h
    have := congrArg String.data h
    simp [unaryJwt] at this
  encode_no_space := by
    intro c sig
    have h1 := not_mem_replicate_x ' ' (by decide)
    have h2 := not_mem_unaryChars ' ' (by decide) (by decide)
    simp only [unaryJwt, List.mem_append, List.mem_cons, not_or]
    exact ⟨h1 _, by decide, h2 _, by decide, h1 _, by decide, h1 _, by decide, h2 _⟩

/-! ## Tokens -/

/-- C3: for every user record `u`, the token that `generateToken` returns,
presented at once (same secret, same clock reading) in an
`Authorization: Bearer` header, is accepted by `authMiddleware`, and the
identity it attaches to the request has `id = u.id` and `email = u.email`.
The token library is any library that meets its contract `JwtLib.Lawful`. -/
theorem token_verifies_immediately (L : JwtLib) (hL : L.Lawful) (env : Env) (now : Nat)
    (u : Row) :
    ∃ c : Claims,
      authMiddleware L env now (some ("Bearer " ++ generateToken L env now u))
        = .next c [.jwtVerify (generateToken L env now u)] ∧
      c.id = u.id ∧ c.email = u.email ∧ c.iat = now ∧ c.exp = now + 3600 := by
  refine ⟨⟨u.id, u.email, now, now + oneHour⟩, ?_, rfl, rfl, rfl, rfl⟩
  have hdec : L.decode (generateToken L env now u) =
      some (⟨u.id, u.email, now, now + oneHour⟩,
        L.mac (JWT_SECRET env) ⟨u.id, u.email, now, now + oneHour⟩) :=
    hL.decode_encode _ _
  have hsp : ' ' ∉ (generateToken L env now u).data := hL.encode_no_space _ _
  have hne : generateToken L env now u ≠ "" := hL.encode_ne _ _
  rw [authMiddleware_of_token L env now _ _ (headerToken_bearer _ hsp) hne,
    jwtVerify_signed L _ _ now _ hdec]
  simp [oneHour]

/-- C3 witness: the token of user 1, `a@b.com`, issued and presented at clock
1000 under the codec `unaryJwt`. -/
theorem token_verifies_immediately_witness :
    ∃ c : Claims,
      authMiddleware unaryJwt [] 1000
        (some ("Bearer " ++ generateToken unaryJwt [] 1000 ⟨1, "a@b.com", "h"⟩))
        = .next c [.jwtVerify (generateToken unaryJwt [] 1000 ⟨1, "a@b.com", "h"⟩)] ∧
      c.id = 1 ∧ c.email = "a@b.com" ∧ c.iat = 1000 ∧ c.exp = 1000 + 3600 :=
  token_verifies_immediately unaryJwt unaryJwt_lawful [] 1000 ⟨1, "a@b.com", "h"⟩

/-- C4: the token issued at clock `t` carries the payload with `exp = t + 3600`;
presented at any clock reading `t'` with `t + 3600 ≤ t'` it fails verification
as expired although its signature is the right one, `authMiddleware` answers
403 `Invalid token`, and the route performs no store lookup; at any earlier
clock reading it still verifies. -/
theorem token_expires_after_one_hour (L : JwtLib) (env : Env) (t : Nat) (u : Row) (s : Store)
    (hdec : L.decode (generateToken L env t u) =
      some (⟨u.id, u.email, t, t + 3600⟩,
        L.mac (JWT_SECRET env) ⟨u.id, u.email, t, t + 3600⟩))
    (hne : generateToken L env t u ≠ "")
    (hsp : ' ' ∉ (generateToken L env t u).data) :
    generateToken L env t u =
      L.encode ⟨u.id, u.email, t, t + 3600⟩
        (L.mac (JWT_SECRET env) ⟨u.id, u.email, t, t + 3600⟩) ∧
    (∀ t', t + 3600 ≤ t' →
      jwtVerify L (generateToken L env t u) (JWT_SECRET env) t' = .error .expired ∧
      authMiddleware L env t' (some ("Bearer " ++ generateToken L env t u))
        = .reject 403 (msg "Invalid token") [.jwtVerify (generateToken L env t u)] ∧
      getUser L env t' s (some ("Bearer " ++ generateToken L env t u))
        = ⟨403, msg "Invalid token", s, [.jwtVerify (generateToken L env t u)]⟩) ∧
    (∀ t', t' < t + 3600 →
      jwtVerify L (generateToken L env t u) (JWT_SECRET env) t'
        = .ok ⟨u.id, u.email, t, t + 3600⟩) := by
  refine ⟨rfl, ?_, ?_⟩
  · intro t' ht'
    have hv : jwtVerify L (generateToken L env t u) (JWT_SECRET env) t' = .error .expired := by
      rw [jwtVerify_signed L _ _ t' _ hdec]; simp [ht']
    have hm : authMiddleware L env t' (some ("Bearer " ++ generateToken L env t u))
        = .reject 403 (msg "Invalid token") [.jwtVerify (generateToken L env t u)] := by
      rw [authMiddleware_of_token L env t' _ _ (headerToken_bearer _ hsp) hne, hv]
    refine ⟨hv, hm, ?_⟩
    simp [getUser, hm]
  · intro t' ht'
    rw [jwtVerify_signed L _ _ t' _ hdec]
    simp [Nat.not_le.mpr ht']

/-- C4 witness: a token issued at clock 1000 and presented at clock 4600. -/
theorem token_expires_after_one_hour_witness :
    getUser demoJwt [] 4600 ⟨[⟨1, "a@b.com", "h"⟩], 2, true⟩
      (some ("Bearer " ++ generateToken demoJwt [] 1000 ⟨1, "a@b.com", "h"⟩))
      = ⟨403, msg "Invalid token", ⟨[⟨1, "a@b.com", "h"⟩], 2, true⟩,
          [.jwtVerify (generateToken demoJwt [] 1000 ⟨1, "a@b.com", "h"⟩)]⟩ :=
  ((token_expires_after_one_hour demoJwt [] 1000 ⟨1, "a@b.com", "h"⟩
    ⟨[⟨1, "a@b.com", "h"⟩], 2, true⟩ (by decide) (by decide) (by decide)).2.1 4600
    (by decide)).2.2

/-! ## The login handler -/

theorem login_no_user (L : JwtLib) (H : Hasher) (env : Env) (now : Nat) (s : Store)
    (e p : String) (he : e ≠ "") (hp : p ≠ "") (hnone : ∀ r ∈ s.rows, r.email ≠ e) :
    login L H env now s ⟨some e, some (.str p)⟩ =
      ⟨400, msg "Invalid credentials", s, [.dbSelectByEmail e]⟩ := by
  simp [login, falsy_some, falsyValue_str, he, hp, selectByEmail_eq_nil s e hnone]

theorem login_first_user (L : JwtLib) (H : Hasher) (env : Env) (now : Nat) (s : Store)
    (e p : String) (he : e ≠ "") (hp : p ≠ "") (u : Row) (rest : List Row)
    (hsel : selectByEmail s e = u :: rest) :
    login L H env now s ⟨some e, some (.str p)⟩ =
      if H.compare p u.password then
        ⟨200, [("token", JVal.str (generateToken L env now u))], s,
          [.dbSelectByEmail e, .bcryptCompare (.str p) u.password, .jwtSign u.id u.email]⟩
      else
        ⟨400, msg "Invalid credentials", s,
          [.dbSelectByEmail e, .bcryptCompare (.str p) u.password]⟩ := by
  simp only [login, falsy_some e he, falsyValue_str p hp, bcryptCompare, Bool.or_self,
    Bool.false_eq_true,
    if_false, Option.getD_some, hsel]
  cases H.compare p u.password <;> simp

/-- A password that is not a string and is truthy passes the guard; when the
email is known, `bcrypt.compare` rejects and the `catch` block answers 500. -/
theorem login_nonstring_password (L : JwtLib) (H : Hasher) (env : Env) (now : Nat) (s : Store)
    (e : String) (v : JVal) (he : e ≠ "") (hv : falsyValue (some v) = false)
    (hns : ∀ p, v ≠ .str p) (u : Row) (rest : List Row)
    (hsel : selectByEmail s e = u :: rest) :
    login L H env now s ⟨some e, some v⟩ =
      ⟨500, msg "Error logging in", s, [.dbSelectByEmail e, .bcryptCompare v u.password]⟩ := by
  have hc : bcryptCompare H v u.password = none := by
    cases v with
    | str p => exact absurd rfl (hns p)
    | _ => rfl
  simp [login, falsy_some e he, hv, hsel, hc]

/-- C2 (as stated, refuted): the body `{ email: 'a@b.com', password: 12345 }`
passes the guard of line 85.  Against a store without `a@b.com` the answer is
400 `Invalid credentials`; against a store that holds `a@b.com` the password
cannot verify, `bcrypt.compare` rejects it, and the answer is 500
`Error logging in`.  The two responses differ in status and body. -/
theorem login_nonstring_password_counterexample :
    (∀ r ∈ ([] : List Row), r.email ≠ "a@b.com") ∧
    falsy (some "a@b.com") = false ∧ falsyValue (some (JVal.num 12345)) = false ∧
    bcryptCompare demoHasher (JVal.num 12345) "$2b$10$pw123456" ≠ some true ∧
    login demoJwt demoHasher [] 0 ⟨[], 1, true⟩ ⟨some "a@b.com", some (.num 12345)⟩
      = ⟨400, msg "Invalid credentials", ⟨[], 1, true⟩, [.dbSelectByEmail "a@b.com"]⟩ ∧
    login demoJwt demoHasher [] 0 ⟨[⟨1, "a@b.com", "$2b$10$pw123456"⟩], 2, true⟩
        ⟨some "a@b.com", some (.num 12345)⟩
      = ⟨500, msg "Error logging in", ⟨[⟨1, "a@b.com", "$2b$10$pw123456"⟩], 2, true⟩,
          [.dbSelectByEmail "a@b.com",
            .bcryptCompare (.num 12345) "$2b$10$pw123456"]⟩ ∧
    (login demoJwt demoHasher [] 0 ⟨[], 1, true⟩ ⟨some "a@b.com", some (.num 12345)⟩).status
      ≠ (login demoJwt demoHasher [] 0 ⟨[⟨1, "a@b.com", "$2b$10$pw123456"⟩], 2, true⟩
          ⟨some "a@b.com", some (.num 12345)⟩).status := by
  decide

/-- C2 (amended): for every non-empty string `e` and non-empty string `p`, the
response of `login` against a store in which no user has email `e` and its
response against a store in which a user has email `e` but `bcrypt.compare`
returns false for `p` against the stored hash have the same status and the same
body: 400 with `{ message: 'Invalid credentials' }`, without a `token` field;
both leave their store unchanged. -/
theorem login_failures_indistinguishable (L : JwtLib) (H : Hasher) (env : Env) (now : Nat)
    (s₁ s₂ : Store) (e p : String) (he : e ≠ "") (hp : p ≠ "")
    (hnone : ∀ r ∈ s₁.rows, r.email ≠ e)
    (u : Row) (hu : u ∈ s₂.rows) (hue : u.email = e)
    (hbad : ∀ r ∈ s₂.rows, r.email = e → H.compare p r.password = false) :
    (login L H env now s₁ ⟨some e, some (.str p)⟩).status
      = (login L H env now s₂ ⟨some e, some (.str p)⟩).status ∧
    (login L H env now s₁ ⟨some e, some (.str p)⟩).body
      = (login L H env now s₂ ⟨some e, some (.str p)⟩).body ∧
    (login L H env now s₂ ⟨some e, some (.str p)⟩).status = 400 ∧
    (login L H env now s₂ ⟨some e, some (.str p)⟩).body = msg "Invalid credentials" ∧
    hasField "token" (login L H env now s₁ ⟨some e, some (.str p)⟩).body = false ∧
    hasField "token" (login L H env now s₂ ⟨some e, some (.str p)⟩).body = false ∧
    (login L H env now s₁ ⟨some e, some (.str p)⟩).store = s₁ ∧
    (login L H env now s₂ ⟨some e, some (.str p)⟩).store = s₂ := by
  rw [login_no_user L H env now s₁ e p he hp hnone]
  have hmem : u ∈ selectByEmail s₂ e := by
    simp [selectByEmail, hu, hue]
  obtain ⟨v, rest, hsel⟩ : ∃ v rest, selectByEmail s₂ e = v :: rest := by
    cases hs : selectByEmail s₂ e with
    | nil => rw [hs] at hmem; exact absurd hmem (List.not_mem_nil _)
    | cons v rest => exact ⟨v, rest, rfl⟩
  have hv : v ∈ selectByEmail s₂ e := by rw [hsel]; exact List.mem_cons_self _ _
  have hv' : v ∈ s₂.rows ∧ v.email = e := by
    simpa [selectByEmail] using hv
  rw [login_first_user L H env now s₂ e p he hp v rest hsel, hbad v hv'.1 hv'.2]
  simp [hasField, msg]

/-- C2 witness: `a@b.com` unknown in the empty table, and known with another
password in a table of one row. -/
theorem login_failures_indistinguishable_witness :
    (login demoJwt demoHasher [] 0 ⟨[], 1, true⟩ ⟨some "a@b.com", some (.str "wrong")⟩).body
      = (login demoJwt demoHasher [] 0 ⟨[⟨1, "a@b.com", "$2b$10$pw123456"⟩], 2, true⟩
          ⟨some "a@b.com", some (.str "wrong")⟩).body :=
  (login_failures_indistinguishable demoJwt demoHasher [] 0 ⟨[], 1, true⟩
    ⟨[⟨1, "a@b.com", "$2b$10$pw123456"⟩], 2, true⟩ "a@b.com" "wrong" (by decide) (by decide)
    (by simp) ⟨1, "a@b.com", "$2b$10$pw123456"⟩ (by simp) rfl (by decide)).2.1

/-! ## The current-user route -/

theorem selectIdEmailById_mem (s : Store) (id : Nat) (j : Json)
    (h : j ∈ selectIdEmailById s id) : ∃ r ∈ s.rows, r.id = id ∧ j = idEmail r := by
  simp only [selectIdEmailById, List.mem_map, List.mem_filter] at h
  obtain ⟨r, ⟨hr, hid⟩, rfl⟩ := h
  exact ⟨r, hr, by simpa using hid, rfl⟩

/-- C5: for every store and every identity that `authMiddleware` attached to
the request, the response of the `/api/user` handler has no `password` field;
if some stored user has the identity's id, the response is 200 and its body is
exactly the `id` and `email` fields of a stored user with that id; if no stored
user has that id, the response is 404 `User not found`. -/
theorem current_user_response (s : Store) (c : Claims) :
    hasField "password" (userHandler s c).body = false ∧
    ((∃ u ∈ s.rows, u.id = c.id) →
      ∃ v ∈ s.rows, v.id = c.id ∧ (userHandler s c).status = 200 ∧
        (userHandler s c).body = [("id", JVal.num v.id), ("email", JVal.str v.email)]) ∧
    ((∀ u ∈ s.rows, u.id ≠ c.id) →
      (userHandler s c).status = 404 ∧ (userHandler s c).body = msg "User not found") ∧
    (userHandler s c).store = s := by
  cases hsel : selectIdEmailById s c.id with
  | nil =>
    have hnone : ∀ u ∈ s.rows, u.id ≠ c.id := by
      intro u hu hid
      have : idEmail u ∈ selectIdEmailById s c.id := by
        simp only [selectIdEmailById, List.mem_map, List.mem_filter]
        exact ⟨u, ⟨hu, by simpa using hid⟩, rfl⟩
      rw [hsel] at this
      exact absurd this (List.not_mem_nil _)
    refine ⟨by simp [userHandler, hsel, hasField, msg], ?_, ?_, by simp [userHandler, hsel]⟩
    · rintro ⟨u, hu, hid⟩
      exact absurd hid (hnone u hu)
    · intro _
      simp [userHandler, hsel]
  | cons j rest =>
    obtain ⟨v, hv, hvid, rfl⟩ := selectIdEmailById_mem s c.id j
      (by rw [hsel]; exact List.mem_cons_self _ _)
    refine ⟨by simp [userHandler, hsel, hasField, idEmail], ?_, ?_, by simp [userHandler, hsel]⟩
    · intro _
      exact ⟨v, hv, hvid, by simp [userHandler, hsel], by simp [userHandler, hsel, idEmail]⟩
    · intro hnone
      exact absurd hvid (hnone v hv)

/-- C5 witness: the stored user 1 is returned without its password hash, and
an id that is not stored gives 404. -/
theorem current_user_response_witness :
    (∃ v ∈ [(⟨1, "a@b.com", "$2b$10$pw123456"⟩ : Row)], v.id = 1 ∧
      (userHandler ⟨[⟨1, "a@b.com", "$2b$10$pw123456"⟩], 2, true⟩ ⟨1, "a@b.com", 0, 3600⟩).status
        = 200 ∧
      (userHandler ⟨[⟨1, "a@b.com", "$2b$10$pw123456"⟩], 2, true⟩ ⟨1, "a@b.com", 0, 3600⟩).body
        = [("id", JVal.num v.id), ("email", JVal.str v.email)]) ∧
    (userHandler ⟨[⟨1, "a@b.com", "$2b$10$pw123456"⟩], 2, true⟩ ⟨5, "x@y.z", 0, 3600⟩).status
      = 404 :=
  ⟨(current_user_response ⟨[⟨1, "a@b.com", "$2b$10$pw123456"⟩], 2, true⟩
      ⟨1, "a@b.com", 0, 3600⟩).2.1 ⟨⟨1, "a@b.com", "$2b$10$pw123456"⟩, by simp, rfl⟩,
   ((current_user_response ⟨[⟨1, "a@b.com", "$2b$10$pw123456"⟩], 2, true⟩
      ⟨5, "x@y.z", 0, 3600⟩).2.2.1 (by simp)).1⟩

/-! ## Status codes of the middleware -/

theorem userHandler_status (s : Store) (c : Claims) :
    (userHandler s c).status = 200 ∨ (userHandler s c).status = 404 := by
  unfold userHandler
  split <;> simp

theorem falsy_eq_false (o : Option String) (h : falsy o = false) :
    ∃ t, o = some t ∧ t ≠ "" := by
  cases o with
  | none => simp [falsy] at h
  | some t => exact ⟨t, rfl, by simpa [falsy] using h⟩

/-- C8 (as stated, refuted): the request with header `Basic abc` carries no
`Authorization: Bearer <token>` header, yet the answer is 403, not 401, and
verification has run on `abc`; and a valid token sent under the scheme word
`Token` instead of `Bearer` is served with 200. -/
theorem auth_scheme_counterexample :
    ("Bearer ".data.isPrefixOf "Basic abc".data) = false ∧
    getUser demoJwt [] 0 ⟨[], 1, true⟩ (some "Basic abc")
      = ⟨403, msg "Invalid token", ⟨[], 1, true⟩, [.jwtVerify "abc"]⟩ ∧
    (getUser demoJwt [] 1000 ⟨[⟨1, "a@b.com", "h"⟩], 2, true⟩
      (some ("Token " ++ generateToken demoJwt [] 1000 ⟨1, "a@b.com", "h"⟩))).status = 200 := by
  decide

/-- C8 (amended): the route answers 401 if and only if the token that
`authMiddleware` extracts is absent or empty, i.e. the header is missing, empty,
or has no non-empty second field when split at single spaces; then the answer
is 401 `No token` and neither verification nor the store lookup runs.  The
first field is not examined: every header `scheme token` presents `token`.
Whenever a non-empty token is presented and fails verification, for whatever
reason, the answer is 403 `Invalid token`, never 401, and the store lookup does
not run. -/
theorem auth_status (L : JwtLib) (env : Env) (now : Nat) (s : Store) (header : Option String) :
    ((getUser L env now s header).status = 401 ↔ falsy (headerToken header) = true) ∧
    (falsy (headerToken header) = true →
      getUser L env now s header = ⟨401, msg "No token", s, []⟩) ∧
    (∀ (tok : String) (err : VerifyError), headerToken header = some tok → tok ≠ "" →
      jwtVerify L tok (JWT_SECRET env) now = .error err →
      getUser L env now s header = ⟨403, msg "Invalid token", s, [.jwtVerify tok]⟩) ∧
    (∀ scheme tok : String, ' ' ∉ scheme.data → ' ' ∉ tok.data →
      headerToken (some (scheme ++ " " ++ tok)) = some tok) ∧
    headerToken none = none := by
  have h401 : falsy (headerToken header) = true →
      getUser L env now s header = ⟨401, msg "No token", s, []⟩ := by
    intro h
    simp [getUser, authMiddleware_no_token L env now header h]
  refine ⟨⟨?_, fun h => by rw [h401 h]⟩, h401, ?_, headerToken_scheme, rfl⟩
  · intro hst
    cases hf : falsy (headerToken header) with
    | true => rfl
    | false =>
      exfalso
      obtain ⟨t, ht, hne⟩ := falsy_eq_false _ hf
      have hm := authMiddleware_of_token L env now header t ht hne
      cases hv : jwtVerify L t (JWT_SECRET env) now with
      | error e =>
        rw [hv] at hm
        simp [getUser, hm] at hst
      | ok c =>
        rw [hv] at hm
        have := userHandler_status s c
        simp [getUser, hm] at hst
        omega
  · intro tok err ht hne hv
    have hm := authMiddleware_of_token L env now header tok ht hne
    rw [hv] at hm
    simp [getUser, hm]

/-- C8 witness: the headers `Bearer` (no token) and `Bearer abc` (a token that
does not parse). -/
theorem auth_status_witness :
    getUser demoJwt [] 0 ⟨[], 1, true⟩ (some "Bearer")
      = ⟨401, msg "No token", ⟨[], 1, true⟩, []⟩ ∧
    getUser demoJwt [] 0 ⟨[], 1, true⟩ (some "Bearer abc")
      = ⟨403, msg "Invalid token", ⟨[], 1, true⟩, [.jwtVerify "abc"]⟩ :=
  ⟨(auth_status demoJwt [] 0 ⟨[], 1, true⟩ (some "Bearer")).2.1 (by decide),
   (auth_status demoJwt [] 0 ⟨[], 1, true⟩ (some "Bearer abc")).2.2.1 "abc" .malformed
      (by decide) (by decide) rfl⟩

/-! ## The signing secret -/

/-- C9 (as stated, refuted): with `JWT_SECRET` unset, and with `JWT_SECRET`
set to the empty string, the secret is the built-in string `supersecretkey`;
`generateToken` signs with it, and `authMiddleware` accepts a token that was
signed with that string for an identity of the signer's choosing. -/
theorem fallback_secret_counterexample :
    JWT_SECRET [] = "supersecretkey" ∧
    JWT_SECRET [("JWT_SECRET", "")] = "supersecretkey" ∧
    generateToken demoJwt [] 0 ⟨1, "a@b.com", "h"⟩
      = jwtSign demoJwt 1 "a@b.com" "supersecretkey" 0 ∧
    authMiddleware demoJwt [] 0
      (some ("Bearer " ++ jwtSign demoJwt 7 "mallory@example.com" "supersecretkey" 0))
      = .next ⟨7, "mallory@example.com", 0, 3600⟩
          [.jwtVerify (jwtSign demoJwt 7 "mallory@example.com" "supersecretkey" 0)] ∧
    authMiddleware demoJwt [("JWT_SECRET", "")] 0
      (some ("Bearer " ++ jwtSign demoJwt 7 "mallory@example.com" "supersecretkey" 0))
      = .next ⟨7, "mallory@example.com", 0, 3600⟩
          [.jwtVerify (jwtSign demoJwt 7 "mallory@example.com" "supersecretkey" 0)] := by
  decide

/-- C9 (amended): the signing secret is the value of `JWT_SECRET` in the
environment when that value is set and non-empty; when it is unset or empty the
secret is the built-in string `supersecretkey`.  `generateToken` signs with this
secret, and with `JWT_SECRET` unset or empty `authMiddleware` accepts every
unexpired token whose signature was made with `supersecretkey`. -/
theorem signing_secret (L : JwtLib) (env : Env) (now : Nat) (u : Row) :
    (∀ v, env.lookup "JWT_SECRET" = some v → v ≠ "" → JWT_SECRET env = v) ∧
    ((env.lookup "JWT_SECRET" = none ∨ env.lookup "JWT_SECRET" = some "") →
      JWT_SECRET env = "supersecretkey") ∧
    generateToken L env now u = jwtSign L u.id u.email (JWT_SECRET env) now ∧
    ((env.lookup "JWT_SECRET" = none ∨ env.lookup "JWT_SECRET" = some "") →
      ∀ (tok : String) (c : Claims), L.decode tok = some (c, L.mac "supersecretkey" c) →
        now < c.exp → tok ≠ "" → ' ' ∉ tok.data →
        authMiddleware L env now (some ("Bearer " ++ tok)) = .next c [.jwtVerify tok]) := by
  have hfb : (env.lookup "JWT_SECRET" = none ∨ env.lookup "JWT_SECRET" = some "") →
      JWT_SECRET env = "supersecretkey" := by
    rintro (h | h) <;> simp [JWT_SECRET, h]
  refine ⟨?_, hfb, rfl, ?_⟩
  · intro v hv hne
    simp [JWT_SECRET, hv, hne]
  · intro h tok c hdec hexp hne hsp
    rw [authMiddleware_of_token L env now _ tok (headerToken_bearer tok hsp) hne, hfb h,
      jwtVerify_signed L tok _ now c hdec]
    simp [Nat.not_le.mpr hexp]

/-- C9 witness: a configured secret is used as it is, and an empty one is
replaced by the built-in string. -/
theorem signing_secret_witness :
    JWT_SECRET [("JWT_SECRET", "k3y")] = "k3y" ∧
    JWT_SECRET [("JWT_SECRET", "")] = "supersecretkey" :=
  ⟨(signing_secret demoJwt [("JWT_SECRET", "k3y")] 0 ⟨1, "a@b.com", "h"⟩).1 "k3y"
      (by decide) (by decide),
   (signing_secret demoJwt [("JWT_SECRET", "")] 0 ⟨1, "a@b.com", "h"⟩).2.1
      (Or.inr (by decide))⟩

/-! ## The start-up loop -/

theorem retrySchedule_eq (delay j : Nat) :
    retrySchedule delay j =
      (List.range' 0 j).flatMap (fun i => [BootEvent.attempt i, BootEvent.wait delay])
        ++ [BootEvent.attempt j] := by
  simp [retrySchedule, List.range_eq_range']

theorem attempts_schedule (delay : Nat) (x : Nat) :
    ∀ d i, attempts ((List.range' i d).flatMap
      (fun k => [BootEvent.attempt k, BootEvent.wait delay]) ++ [BootEvent.attempt x]) = d + 1 := by
  intro d
  induction d with
  | zero => intro i; simp [attempts]
  | succ d ih =>
    intro i
    have := ih (i + 1)
    simp only [attempts] at this ⊢
    simp [List.range'_succ, List.filter_cons] at this ⊢
    exact this

theorem connectLoop_resolves (connectDB : Nat → Option String) (retries delay : Nat) :
    ∀ d i, i + d < retries → connectDB (i + d) = none →
      (∀ k, i ≤ k → k < i + d → connectDB k ≠ none) →
      connectLoop connectDB retries delay i =
        ((List.range' i d).flatMap (fun k => [BootEvent.attempt k, BootEvent.wait delay])
          ++ [BootEvent.attempt (i + d)], Settled.resolved) := by
  intro d
  induction d with
  | zero =>
    intro i hlt hs _
    rw [connectLoop]
    simp only [Nat.add_zero] at hlt hs
    simp [hlt, hs]
  | succ d ih =>
    intro i hlt hs hfail
    obtain ⟨err, herr⟩ : ∃ err, connectDB i = some err := by
      cases h : connectDB i with
      | none => exact absurd h (hfail i (Nat.le_refl _) (by omega))
      | some err => exact ⟨err, rfl⟩
    have hrec := ih (i + 1) (by omega) (by rw [← hs]; congr 1; omega)
      (fun k hk hk' => hfail k (by omega) (by omega))
    rw [connectLoop]
    have h1 : i < retries := by omega
    have h2 : i < retries - 1 := by omega
    have h3 : i + 1 + d = i + (d + 1) := by omega
    simp [h1, h2, herr, hrec, List.range'_succ, h3]

theorem connectLoop_rejects (connectDB : Nat → Option String) (retries delay : Nat) :
    ∀ d i, i + d + 1 = retries →
      (∀ k, i ≤ k → k < retries → connectDB k ≠ none) →
      ∃ err, connectDB (retries - 1) = some err ∧
        connectLoop connectDB retries delay i =
          ((List.range' i d).flatMap (fun k => [BootEvent.attempt k, BootEvent.wait delay])
            ++ [BootEvent.attempt (retries - 1)], Settled.rejected err) := by
  intro d
  induction d with
  | zero =>
    intro i hlt hfail
    obtain ⟨err, herr⟩ : ∃ err, connectDB i = some err := by
      cases h : connectDB i with
      | none => exact absurd h (hfail i (Nat.le_refl _) (by omega))
      | some err => exact ⟨err, rfl⟩
    have hi : retries - 1 = i := by omega
    refine ⟨err, by rw [hi]; exact herr, ?_⟩
    rw [connectLoop]
    have h1 : i < retries := by omega
    have h2 : ¬ (i < retries - 1) := by omega
    simp [h1, h2, herr, hi]
  | succ d ih =>
    intro i hlt hfail
    obtain ⟨err, herr⟩ : ∃ err, connectDB i = some err := by
      cases h : connectDB i with
      | none => exact absurd h (hfail i (Nat.le_refl _) (by omega))
      | some err => exact ⟨err, rfl⟩
    obtain ⟨e', he', hrec⟩ := ih (i + 1) (by omega) (fun k hk hk' => hfail k (by omega) hk')
    refine ⟨e', he', ?_⟩
    rw [connectLoop]
    have h1 : i < retries := by omega
    have h2 : i < retries - 1 := by omega
    simp [h1, h2, herr, hrec, List.range'_succ]

/-- A run in which attempt `j` is the first to connect. -/
theorem connectDBWithRetry_first_success (connectDB : Nat → Option String)
    (retries delay j : Nat) (hj : j < retries) (hs : connectDB j = none)
    (hfail : ∀ k < j, connectDB k ≠ none) :
    connectDBWithRetry connectDB retries delay = (retrySchedule delay j, .resolved) := by
  have := connectLoop_resolves connectDB retries delay j 0 (by omega)
    (by rw [Nat.zero_add]; exact hs) (fun k _ hk => hfail k (by omega))
  rw [connectDBWithRetry, this, retrySchedule_eq, Nat.zero_add]

/-- A run in which none of the `retries` attempts connects. -/
theorem connectDBWithRetry_exhausted (connectDB : Nat → Option String)
    (retries delay : Nat) (hr : 1 ≤ retries) (hfail : ∀ k < retries, connectDB k ≠ none) :
    ∃ err, connectDB (retries - 1) = some err ∧
      connectDBWithRetry connectDB retries delay
        = (retrySchedule delay (retries - 1), .rejected err) := by
  obtain ⟨err, herr, h⟩ := connectLoop_rejects connectDB retries delay (retries - 1) 0
    (by omega) (fun k _ hk => hfail k hk)
  exact ⟨err, herr, by rw [connectDBWithRetry, h, retrySchedule_eq]⟩

theorem connectDBWithRetry_resolved_iff (connectDB : Nat → Option String)
    (retries delay : Nat) (hr : 1 ≤ retries) :
    (connectDBWithRetry connectDB retries delay).2 = .resolved ↔
      ∃ j, j < retries ∧ connectDB j = none := by
  constructor
  · intro h
    by_contra hne
    have hfail : ∀ k < retries, connectDB k ≠ none := fun k hk hk' => hne ⟨k, hk, hk'⟩
    obtain ⟨err, _, hrej⟩ := connectDBWithRetry_exhausted connectDB retries delay hr hfail
    rw [hrej] at h
    exact absurd h (by simp)
  · intro h
    have hmin : ∀ k < Nat.find h, connectDB k ≠ none := by
      intro k hk hk'
      exact Nat.find_min h hk ⟨Nat.lt_trans hk (Nat.find_spec h).1, hk'⟩
    rw [connectDBWithRetry_first_success connectDB retries delay (Nat.find h)
      (Nat.find_spec h).1 (Nat.find_spec h).2 hmin]

theorem connectDBWithRetry_attempts_le (connectDB : Nat → Option String)
    (retries delay : Nat) (hr : 1 ≤ retries) :
    attempts (connectDBWithRetry connectDB retries delay).1 ≤ retries := by
  by_cases h : ∃ j, j < retries ∧ connectDB j = none
  · have hmin : ∀ k < Nat.find h, connectDB k ≠ none := by
      intro k hk hk'
      exact Nat.find_min h hk ⟨Nat.lt_trans hk (Nat.find_spec h).1, hk'⟩
    rw [connectDBWithRetry_first_success connectDB retries delay (Nat.find h)
      (Nat.find_spec h).1 (Nat.find_spec h).2 hmin, retrySchedule_eq, attempts_schedule]
    have := (Nat.find_spec h).1
    omega
  · have hfail : ∀ k < retries, connectDB k ≠ none := fun k hk hk' => h ⟨k, hk, hk'⟩
    obtain ⟨err, _, hrej⟩ := connectDBWithRetry_exhausted connectDB retries delay hr hfail
    rw [hrej, retrySchedule_eq, attempts_schedule]
    omega

/-- C10: for `retries ≥ 1`, every delay and every sequence of `connectDB`
outcomes: if attempt `j < retries` is the first to connect, the loop makes the
attempts `0 .. j` in order, waits `delay` after each failed one, stops there and
resolves; if none of the first `retries` attempts connects, it makes exactly
these `retries` attempts with a wait between consecutive ones (none after the
last) and rejects with the error of the last attempt; it never makes more than
`retries` attempts; it resolves if and only if one of the first `retries`
attempts connects; and `app.listen` is called if and only if the start-up call
(ten attempts) resolves. -/
theorem connectDBWithRetry_spec (connectDB : Nat → Option String) (retries delay : Nat)
    (hr : 1 ≤ retries) :
    (∀ j, j < retries → connectDB j = none → (∀ k < j, connectDB k ≠ none) →
      connectDBWithRetry connectDB retries delay = (retrySchedule delay j, .resolved)) ∧
    ((∀ k < retries, connectDB k ≠ none) →
      ∃ err, connectDB (retries - 1) = some err ∧
        connectDBWithRetry connectDB retries delay
          = (retrySchedule delay (retries - 1), .rejected err)) ∧
    attempts (connectDBWithRetry connectDB retries delay).1 ≤ retries ∧
    ((connectDBWithRetry connectDB retries delay).2 = .resolved ↔
      ∃ j, j < retries ∧ connectDB j = none) ∧
    (startup connectDB = true ↔ (connectDBWithRetry connectDB 10 3000).2 = .resolved) ∧
    (startup connectDB = true ↔ ∃ j, j < 10 ∧ connectDB j = none) := by
  have hstart : startup connectDB = true ↔
      (connectDBWithRetry connectDB 10 3000).2 = .resolved := by
    unfold startup
    cases (connectDBWithRetry connectDB 10 3000).2 <;> simp
  refine ⟨fun j hj hs hf => connectDBWithRetry_first_success connectDB retries delay j hj hs hf,
    connectDBWithRetry_exhausted connectDB retries delay hr,
    connectDBWithRetry_attempts_le connectDB retries delay hr,
    connectDBWithRetry_resolved_iff connectDB retries delay hr, hstart, ?_⟩
  rw [hstart]
  exact connectDBWithRetry_resolved_iff connectDB 10 3000 (by decide)

/-- C10 witness: three attempts allowed, the database down throughout. -/
theorem connectDBWithRetry_spec_witness :
    ∃ err, (fun _ : Nat => some "down") (3 - 1) = some err ∧
      connectDBWithRetry (fun _ => some "down") 3 3000
        = (retrySchedule 3000 (3 - 1), .rejected err) :=
  (connectDBWithRetry_spec (fun _ => some "down") 3 3000 (by decide)).2.1
    (fun _ _ h => by simp at h)

/-! ## The register / login / current-user scenario -/

/-- An email that the column refuses leaves the table as it was. -/
theorem register_refused_store (H : Hasher) (salt : Nat) (s : Store) (e p : String)
    (err : DbError) (he : e ≠ "") (hp : p ≠ "") (hnew : ∀ r ∈ s.rows, r.email ≠ e)
    (hst : storeVarchar s.strict e = .error err) :
    (register H salt s ⟨some e, some (.str p)⟩).store = s := by
  simp [register, falsy_some, falsyValue_str, bcryptHash, he, hp, selectByEmail_eq_nil s e hnew, insertUser, hst]

/-- C6 (as stated, refuted): the claim quantifies over every non-empty email.
For the 256-character email `longEmail2`, the passwords `pw123456` and `wrong`,
the empty table in strict mode and a hasher that accepts `pw123456` and rejects
`wrong` against the stored hash, `register` answers 500 instead of 201, and the
following `login` with the same credentials answers 400 instead of 200.  For
`a@b.com`, `register` answers 500 when the id counter has passed the `INT`
range, and the token of a login at clock 1000 gets 403 from `GET /user` at
clock 4600. -/
theorem scenario_counterexample :
    (∀ r ∈ ([] : List Row), r.email ≠ longEmail2) ∧ longEmail2 ≠ "" ∧
    "wrong" ≠ "pw123456" ∧
    demoHasher.compare "pw123456" (demoHasher.hash 0 "pw123456") = true ∧
    demoHasher.compare "wrong" (demoHasher.hash 0 "pw123456") = false ∧
    (register demoHasher 0 ⟨[], 1, true⟩ ⟨some longEmail2, some (.str "pw123456")⟩).status = 500 ∧
    (register demoHasher 0 ⟨[], 1, true⟩ ⟨some longEmail2, some (.str "pw123456")⟩).store
      = ⟨[], 1, true⟩ ∧
    (login demoJwt demoHasher [] 0 ⟨[], 1, true⟩ ⟨some longEmail2, some (.str "pw123456")⟩).status
      = 400 ∧
    (register demoHasher 0 ⟨[], intMax + 1, true⟩ ⟨some "a@b.com", some (.str "pw123456")⟩).status
      = 500 ∧
    (getUser demoJwt [] 4600
      (register demoHasher 0 ⟨[], 1, true⟩ ⟨some "a@b.com", some (.str "pw123456")⟩).store
      (some ("Bearer " ++
        generateToken demoJwt [] 1000 ⟨1, "a@b.com", demoHasher.hash 0 "pw123456"⟩))).status
      = 403 := by
  refine ⟨by simp, long_ne 'b', by decide, by decide, by decide, ?_, ?_, ?_, by decide,
    by decide⟩
  · exact register_refused _ _ _ _ _ _ (long_ne 'b') (by decide) (by simp)
      (storeVarchar_long_strict 'b' (by decide))
  · exact register_refused_store _ _ _ _ _ _ (long_ne 'b') (by decide) (by simp)
      (storeVarchar_long_strict 'b' (by decide))
  · rw [login_no_user demoJwt demoHasher [] 0 ⟨[], 1, true⟩ longEmail2 "pw123456"
      (long_ne 'b') (by decide) (by simp)]

/-- C6 (amended): for every non-empty email `e` of at most 255 characters and
non-empty passwords `p` and `w`, starting from a store that holds no user `e`,
whose ids lie below its counter and whose counter is within the `INT` range
(and assuming the hasher accepts `p` and rejects `w` against the hash stored
for `p`, and the token library reads back the token it wrote): `register (e, p)`
answers 201 and the store assigns the id `n = nextId` to `e`; `login (e, p)`
then answers 200 with a token; `GET /user` with that token, presented before it
expires, answers 200 with `{ id: n, email: e }`; and `login (e, w)` answers 400
`Invalid credentials`. -/
theorem register_login_scenario (L : JwtLib) (H : Hasher) (env : Env) (salt now now' : Nat)
    (s : Store) (e p w : String)
    (he : e ≠ "") (hp : p ≠ "") (hw : w ≠ "") (hlen : e.length ≤ 255)
    (hid : s.nextId ≤ intMax) (hwf : s.WF) (hnew : ∀ r ∈ s.rows, r.email ≠ e)
    (hok : H.compare p (H.hash salt p) = true)
    (hbad : H.compare w (H.hash salt p) = false)
    (hdec : L.decode (generateToken L env now ⟨s.nextId, e, H.hash salt p⟩) =
      some (⟨s.nextId, e, now, now + 3600⟩,
        L.mac (JWT_SECRET env) ⟨s.nextId, e, now, now + 3600⟩))
    (hne : generateToken L env now ⟨s.nextId, e, H.hash salt p⟩ ≠ "")
    (hsp : ' ' ∉ (generateToken L env now ⟨s.nextId, e, H.hash salt p⟩).data)
    (hlive : now' < now + 3600) :
    (register H salt s ⟨some e, some (.str p)⟩).status = 201 ∧
    selectByEmail (register H salt s ⟨some e, some (.str p)⟩).store e
      = [⟨s.nextId, e, H.hash salt p⟩] ∧
    (login L H env now (register H salt s ⟨some e, some (.str p)⟩).store ⟨some e, some (.str p)⟩).status
      = 200 ∧
    (login L H env now (register H salt s ⟨some e, some (.str p)⟩).store ⟨some e, some (.str p)⟩).body
      = [("token", JVal.str (generateToken L env now ⟨s.nextId, e, H.hash salt p⟩))] ∧
    (getUser L env now' (register H salt s ⟨some e, some (.str p)⟩).store
      (some ("Bearer " ++ generateToken L env now ⟨s.nextId, e, H.hash salt p⟩))).status
      = 200 ∧
    (getUser L env now' (register H salt s ⟨some e, some (.str p)⟩).store
      (some ("Bearer " ++ generateToken L env now ⟨s.nextId, e, H.hash salt p⟩))).body
      = [("id", JVal.num s.nextId), ("email", JVal.str e)] ∧
    (login L H env now (register H salt s ⟨some e, some (.str p)⟩).store ⟨some e, some (.str w)⟩).status
      = 400 ∧
    (login L H env now (register H salt s ⟨some e, some (.str p)⟩).store ⟨some e, some (.str w)⟩).body
      = msg "Invalid credentials" := by
  rw [register_fresh H salt s e p he hp hlen hid hnew]
  have hsel : selectByEmail
      { s with rows := s.rows ++ [⟨s.nextId, e, H.hash salt p⟩], nextId := s.nextId + 1 } e
      = [⟨s.nextId, e, H.hash salt p⟩] := by
    have h0 := selectByEmail_eq_nil s e hnew
    simp only [selectByEmail] at h0 ⊢
    simp [List.filter_append, h0]
  have hbyid : selectIdEmailById
      { s with rows := s.rows ++ [⟨s.nextId, e, H.hash salt p⟩], nextId := s.nextId + 1 }
      s.nextId = [idEmail ⟨s.nextId, e, H.hash salt p⟩] := by
    have h0 : s.rows.filter (fun r => r.id == s.nextId) = [] := by
      rw [List.filter_eq_nil_iff]
      intro r hr
      have := hwf r hr
      simp only [beq_iff_eq]
      omega
    simp [selectIdEmailById, List.filter_append, h0]
  have hmw : authMiddleware L env now'
      (some ("Bearer " ++ generateToken L env now ⟨s.nextId, e, H.hash salt p⟩))
      = .next ⟨s.nextId, e, now, now + 3600⟩
          [.jwtVerify (generateToken L env now ⟨s.nextId, e, H.hash salt p⟩)] := by
    rw [authMiddleware_of_token L env now' _ _ (headerToken_bearer _ hsp) hne,
      jwtVerify_signed L _ _ now' _ hdec]
    simp [Nat.not_le.mpr hlive]
  refine ⟨rfl, hsel, ?_, ?_, ?_, ?_, ?_, ?_⟩
  · rw [login_first_user L H env now _ e p he hp _ _ hsel]; simp [hok]
  · rw [login_first_user L H env now _ e p he hp _ _ hsel]; simp [hok]
  · simp [getUser, hmw, userHandler, hbyid]
  · simp [getUser, hmw, userHandler, hbyid, idEmail]
  · rw [login_first_user L H env now _ e w he hw _ _ hsel]; simp [hbad]
  · rw [login_first_user L H env now _ e w he hw _ _ hsel]; simp [hbad]

/-- C6 witness: the scenario of the specification, `a@b.com` with `pw123456`
and then `wrong`, run on the empty table; the store assigns id 1. -/
theorem register_login_scenario_witness :
    (register demoHasher 0 ⟨[], 1, true⟩ ⟨some "a@b.com", some (.str "pw123456")⟩).status = 201 ∧
    (getUser demoJwt [] 1000
      (register demoHasher 0 ⟨[], 1, true⟩ ⟨some "a@b.com", some (.str "pw123456")⟩).store
      (some ("Bearer " ++
        generateToken demoJwt [] 1000 ⟨1, "a@b.com", demoHasher.hash 0 "pw123456"⟩))).body
      = [("id", JVal.num 1), ("email", JVal.str "a@b.com")] ∧
    (login demoJwt demoHasher [] 1000
      (register demoHasher 0 ⟨[], 1, true⟩ ⟨some "a@b.com", some (.str "pw123456")⟩).store
      ⟨some "a@b.com", some (.str "wrong")⟩).status = 400 :=
  have h := register_login_scenario demoJwt demoHasher [] 0 1000 1000 ⟨[], 1, true⟩
    "a@b.com" "pw123456" "wrong" (by decide) (by decide) (by decide) (by decide) (by decide)
    (by decide) (by simp) (by decide) (by decide) (by decide) (by decide) (by decide)
    (by decide)
  ⟨h.1, h.2.2.2.2.2.1, h.2.2.2.2.2.2.1⟩

/-! ## The table invariant -/

/-- Registration keeps a well-formed table well formed: ids are handed out
from the counter only. -/
theorem register_preserves_WF (H : Hasher) (salt : Nat) (s : Store) (body : Credentials)
    (hwf : s.WF) : (register H salt s body).store.WF := by
  unfold register
  split
  · exact hwf
  · simp only []
    split
    · exact hwf
    · cases hh : bcryptHash H salt (body.password.getD .null) with
      | none => exact hwf
      | some hashed =>
        simp only []
        cases hins : insertUser s (body.email.getD "") hashed with
        | error err => exact hwf
        | ok s' =>
          simp only [insertUser] at hins
          split at hins
          · exact absurd hins (by simp)
          · split at hins
            · exact absurd hins (by simp)
            · split at hins
              · exact absurd hins (by simp)
              · have hs' := Except.ok.inj hins
                subst hs'
                intro r hr
                simp only [List.mem_append, List.mem_singleton] at hr
                rcases hr with hr | hr
                · exact Nat.lt_succ_of_lt (hwf r hr)
                · subst hr
                  exact Nat.lt_succ_self _

end AuthServer
